import Mathlib

/-!
Verification development for the HydraTeams proxy (src/proxy.ts, src/logger.ts).

The proxy sits between an Anthropic Messages API client and an OpenAI-style
upstream.  This file gives a shallow embedding of the routing classifier, the
count_tokens handler, the main /v1/messages handler's routing phase, the
retry/backoff loop, the translated-reply dispatch (error envelopes,
non-streaming translation, SSE), and the logger's session correlator, and
proves the specification's claims about them.

Modelling conventions:
- JavaScript strings are Lean `String`s (lists of characters); `.length`,
  substring `includes`, `startsWith` and `endsWith` are modelled on the
  character list.  JS string lengths are UTF-16 code-unit counts, which agree
  with character counts on the BMP inputs considered here.
- JSON values are modelled by the inductive `Json` (numbers restricted to
  integers; this suffices for every property proved here).
- JS truthiness is modelled where the source relies on it: `undefined`/absent
  is `Option.none`, the empty string is falsy, an array is always truthy.
-/

/-- JSON values as produced by `JSON.parse` (numbers restricted to integers). -/
inductive Json where
  | null : Json
  | bool (b : Bool) : Json
  | num (n : Int) : Json
  | str (s : String) : Json
  | arr (xs : List Json) : Json
  | obj (fields : List (String × Json)) : Json

mutual
/-- Structural equality on `Json`, modelling the SameValueZero equality used
by `Array.prototype.includes` (objects/arrays compare structurally here; the
source only ever compares against a string, where the two notions agree). -/
def jsonBeq : Json → Json → Bool
  | .null, .null => true
  | .bool a, .bool b => a == b
  | .num a, .num b => a == b
  | .str a, .str b => a == b
  | .arr a, .arr b => jsonListBeq a b
  | .obj a, .obj b => jsonFieldsBeq a b
  | _, _ => false

def jsonListBeq : List Json → List Json → Bool
  | [], [] => true
  | a :: as, b :: bs => jsonBeq a b && jsonListBeq as bs
  | _, _ => false

def jsonFieldsBeq : List (String × Json) → List (String × Json) → Bool
  | [], [] => true
  | (ka, va) :: as, (kb, vb) :: bs => ka == kb && jsonBeq va vb && jsonFieldsBeq as bs
  | _, _ => false
end

instance : BEq Json := ⟨jsonBeq⟩

/-- `needle` occurs at the head of `hay` (character lists). -/
def strHeadMatch : List Char → List Char → Bool
  | [], _ => true
  | _ :: _, [] => false
  | p :: ps, c :: cs => p == c && strHeadMatch ps cs

/-- `hay` has `needle` as a contiguous substring; models
`String.prototype.includes`. -/
def charsContain : List Char → List Char → Bool
  | [], needle => needle.isEmpty
  | c :: t, needle => strHeadMatch needle (c :: t) || charsContain t needle

/-- Models JS `hay.includes(needle)`. -/
def containsStr (hay needle : String) : Bool :=
  charsContain hay.data needle.data

/-- Models JS `s.startsWith(p)`. -/
def startsWithJS (s p : String) : Bool :=
  strHeadMatch p.data s.data

/-- Models JS `s.endsWith(p)`. -/
def endsWithJS (s p : String) : Bool :=
  strHeadMatch p.data.reverse s.data.reverse

/-- Models JS `s.toLowerCase()` (ASCII range; the inputs considered here are
ASCII, where JS and `Char.toLower` agree). -/
def toLowerJS (s : String) : String :=
  ⟨s.data.map Char.toLower⟩

/-- Models the JS ternary `opt ? opt : dflt` on an optional string (the empty
string is falsy). -/
def truthyOr (opt : Option String) (dflt : String) : String :=
  match opt with
  | some s => if s.isEmpty then dflt else s
  | none => dflt

/-- JSON string escaping as performed by `JSON.stringify` (BMP characters;
lone surrogates cannot occur in `Char`). -/
def escChar (c : Char) : List Char :=
  if c == '"' then ['\\', '"']
  else if c == '\\' then ['\\', '\\']
  else if c == '\n' then ['\\', 'n']
  else if c == '\r' then ['\\', 'r']
  else if c == '\t' then ['\\', 't']
  else if c.toNat == 8 then ['\\', 'b']
  else if c.toNat == 12 then ['\\', 'f']
  else if c.toNat < 32 then
    ['\\', 'u', '0', '0',
     (Nat.digitChar (c.toNat / 16)), (Nat.digitChar (c.toNat % 16))]
  else [c]

/-- `JSON.stringify` of a string value. -/
def stringifyStr (s : String) : String :=
  ⟨'"' :: (s.data.map escChar).flatten ++ ['"']⟩

mutual
/-- `JSON.stringify` (no indentation), restricted to the `Json` model. -/
def jsonStringify : Json → String
  | .null => "null"
  | .bool true => "true"
  | .bool false => "false"
  | .num n => toString n
  | .str s => stringifyStr s
  | .arr xs => "[" ++ String.intercalate "," (jsonStringifyList xs) ++ "]"
  | .obj fs => "\x7b" ++ String.intercalate "," (jsonStringifyFields fs) ++ "\x7d"

def jsonStringifyList : List Json → List String
  | [] => []
  | x :: xs => jsonStringify x :: jsonStringifyList xs

def jsonStringifyFields : List (String × Json) → List String
  | [] => []
  | (k, v) :: fs => (stringifyStr k ++ ":" ++ jsonStringify v) :: jsonStringifyFields fs
end

/-- First field of a JSON object with the given key (absent on non-objects,
modelling JS property access returning `undefined`). -/
def jsonField (j : Json) (k : String) : Option Json :=
  match j with
  | .obj fs => (fs.find? (fun f => f.1 == k)).map Prod.snd
  | _ => none

/-- proxy.ts line 13. -/
def LEAD_MARKER : String := "hydra:lead"

/-- proxy.ts line 14. -/
def TEAMMATE_MARKER : String := "the user interacts primarily with the team lead"

/-- proxy.ts line 11. -/
def DEFAULT_ANTHROPIC_BASE_URL : String := "https://api.anthropic.com"

/-- The inbound `system` field: a string, an array of blocks, or absent.
(Other JSON primitives, on which the lead-marker check would throw in JS,
are outside the model.) -/
inductive SystemVal where
  | absent : SystemVal
  | str (s : String) : SystemVal
  | blocks (bs : List Json) : SystemVal

/-- `block.text || ""` for a system/content block (proxy.ts lines 123, 205);
non-string `text` fields, which JS would coerce, are outside the model. -/
def blockText (b : Json) : String :=
  match jsonField b "text" with
  | some (.str t) => t
  | _ => ""

/-- proxy.ts lines 119-127 (`extractSystemText`). -/
def extractSystemText : SystemVal → String
  | .str s => s
  | .blocks bs => String.intercalate " " (bs.map blockText)
  | .absent => ""

/-- The runtime value passed as `searchText` to `shouldPassthrough`: the main
endpoint passes a concatenated string, the count_tokens endpoint passes the
raw `parsed.system` (possibly `undefined` or a block array). -/
inductive SearchArg where
  | undef : SearchArg
  | ofStr (s : String) : SearchArg
  | ofBlocks (bs : List Json) : SearchArg

/-- JS truthiness of the `searchText` argument (`!!searchText`). -/
def searchTruthy : SearchArg → Bool
  | .undef => false
  | .ofStr s => !s.isEmpty
  | .ofBlocks _ => true

/-- `searchText.includes(LEAD_MARKER)`: substring test on a string, element
membership (`Array.prototype.includes`) on an array. -/
def searchIncludesLead : SearchArg → Bool
  | .undef => false
  | .ofStr s => containsStr s LEAD_MARKER
  | .ofBlocks bs => bs.contains (Json.str LEAD_MARKER)

/-- proxy.ts lines 16-29 (`shouldPassthrough`). -/
def shouldPassthrough (model : String) (passthroughModels : List String)
    (searchText : SearchArg) : Bool :=
  if passthroughModels.isEmpty then false
  else if passthroughModels.contains "*" then startsWithJS model "claude-"
  else if passthroughModels.contains "lead" then
    searchTruthy searchText && searchIncludesLead searchText
  else passthroughModels.contains model

/-- How `parsed.system` reaches `shouldPassthrough` on the count_tokens path
(proxy.ts line 160): the raw field, untouched. -/
def searchArgOfSystem : SystemVal → SearchArg
  | .absent => .undef
  | .str s => .ofStr s
  | .blocks bs => .ofBlocks bs

/-- The parsed inbound request body (`JSON.parse(body)`), with the fields the
proxy reads.  `model` is a string (an absent model behaves as the falsy empty
string in every guard the claims touch); `messages` is restricted to an array
(non-array truthy values would throw on `.slice`/`JSON.stringify` reuse and
are outside the model); `stream` is the raw JSON field. -/
structure InboundReq where
  model : String
  system : SystemVal
  messages : Option (List Json)
  stream : Option Json
  tools : Option (List Json)

/-- The proxy configuration fields read by the request handlers
(translators/types.ts is not part of this repository's sources; the field
set is exactly the one `proxy.ts` reads). -/
structure ProxyConfig where
  targetProvider : String
  targetModel : String
  spoofModel : String
  targetUrl : Option String
  passthroughModels : List String
  leadBaseUrl : Option String

/-- proxy.ts line 102: `baseUrl.replace(/\/+$/, "")`. -/
def stripTrailingSlashes (s : String) : String :=
  ⟨(s.data.reverse.dropWhile (fun c => c == '/')).reverse⟩

/-- proxy.ts lines 101-107 (`normalizeAnthropicMessagesUrl`). -/
def normalizeAnthropicMessagesUrl (baseUrl : String) (countTokens : Bool) : String :=
  let stripped := stripTrailingSlashes baseUrl
  let messagesUrl :=
    if endsWithJS stripped "/v1/messages" then stripped else stripped ++ "/v1/messages"
  if countTokens then messagesUrl ++ "/count_tokens" else messagesUrl

/-- `Math.ceil(a / b)` for natural `a` and positive natural `b`. -/
def ceilDiv (a b : Nat) : Nat := (a + b - 1) / b

/-- Outcome of the count_tokens handler: relay upstream, or answer locally
with a status and an `input_tokens` value. -/
inductive CountReply where
  | passthroughCall (url : String) : CountReply
  | localJson (status : Nat) (inputTokens : Nat) : CountReply
deriving DecidableEq

/-- The passthrough guard on the count_tokens path (proxy.ts line 160):
`parsed.model && shouldPassthrough(parsed.model, matchers, parsed.system)` —
note the raw `parsed.system` as search text, and no teammate override. -/
def countPassthroughB (cfg : ProxyConfig) (req : InboundReq) : Bool :=
  !req.model.isEmpty
    && shouldPassthrough req.model cfg.passthroughModels (searchArgOfSystem req.system)

/-- proxy.ts lines 156-183: the count_tokens handler.  `none` stands for a
body on which `JSON.parse` throws. -/
def handleCount (cfg : ProxyConfig) (parsed : Option InboundReq) : CountReply :=
  match parsed with
  | none => .localJson 200 1000
  | some req =>
    if countPassthroughB cfg req then
      let systemText := extractSystemText req.system
      let isLeadPassthrough :=
        cfg.passthroughModels.contains "lead" && containsStr systemText LEAD_MARKER
      let base :=
        if isLeadPassthrough then truthyOr cfg.leadBaseUrl DEFAULT_ANTHROPIC_BASE_URL
        else DEFAULT_ANTHROPIC_BASE_URL
      .passthroughCall (normalizeAnthropicMessagesUrl base true)
    else
      .localJson 200
        (ceilDiv (jsonStringify (Json.arr (req.messages.getD []))).length 4)

/-- `m.content` text extraction for one message (proxy.ts lines 203-207). -/
def messageText (m : Json) : String :=
  match jsonField m "content" with
  | some (.str s) => s
  | some (.arr bs) => String.intercalate " " (bs.map blockText)
  | _ => ""

/-- proxy.ts lines 203-207: text of the first three messages, joined. -/
def msgTextOf (msgs : List Json) : String :=
  String.intercalate " " ((msgs.take 3).map messageText)

/-- proxy.ts line 209: `systemText + " " + msgText`. -/
def fullTextOf (req : InboundReq) : String :=
  extractSystemText req.system ++ " " ++ msgTextOf (req.messages.getD [])

/-- proxy.ts line 211: case-insensitive teammate-phrase match on the system
text alone. -/
def isTeammateOf (req : InboundReq) : Bool :=
  containsStr (toLowerJS (extractSystemText req.system)) TEAMMATE_MARKER

/-- proxy.ts line 217: the main endpoint's passthrough decision —
`!isTeammate && shouldPassthrough(model, matchers, fullText)`. -/
def mainPassthroughB (cfg : ProxyConfig) (req : InboundReq) : Bool :=
  !isTeammateOf req
    && shouldPassthrough req.model cfg.passthroughModels (.ofStr (fullTextOf req))

/-- Routing outcome of the main /v1/messages handler: a parse failure answered
locally, a passthrough relay, or translation toward the configured provider. -/
inductive MainReply where
  | parseError (status : Nat) (errType : String) : MainReply
  | passthroughCall (url : String) : MainReply
  | translate (provider : String) : MainReply
deriving DecidableEq

/-- proxy.ts lines 195-263 (routing phase) and 382-398 (catch): `none` stands
for a body on which `JSON.parse` throws, which reaches the catch block before
any translation or upstream call and answers 500 with an `api_error`
envelope. -/
def mainRoute (cfg : ProxyConfig) (parsed : Option InboundReq) : MainReply :=
  match parsed with
  | none => .parseError 500 "api_error"
  | some req =>
    if mainPassthroughB cfg req then
      let hasMarker := containsStr (fullTextOf req) LEAD_MARKER
      let isLeadPassthrough := cfg.passthroughModels.contains "lead" && hasMarker
      let base :=
        if isLeadPassthrough then truthyOr cfg.leadBaseUrl DEFAULT_ANTHROPIC_BASE_URL
        else DEFAULT_ANTHROPIC_BASE_URL
      .passthroughCall (normalizeAnthropicMessagesUrl base false)
    else
      .translate cfg.targetProvider

/-- Whether a routing outcome goes on to contact an upstream or run a
translator (everything except the local parse-failure reply). -/
def attemptsUpstreamOrTranslation : MainReply → Bool
  | .parseError _ _ => false
  | .passthroughCall _ => true
  | .translate _ => true

/-- proxy.ts lines 267 and 321: `MAX_RETRIES = 5`. -/
def MAX_RETRIES : Nat := 5

/-- proxy.ts lines 283 and 334: `Math.min(1000 * Math.pow(2, attempt), 10000)`. -/
def backoffWait (attempt : Nat) : Nat := min (1000 * 2 ^ attempt) 10000

/-- The retry loop of proxy.ts lines 269-287 / 323-338, with `f attempt` the
upstream HTTP status of the fetch at that attempt.  The first component
counts upstream calls, the second collects the inter-attempt delays slept,
the third is the status of the final (terminal) response.  The argument pair
is (remaining further attempts allowed, current attempt index). -/
def retryAux (f : Nat → Nat) : Nat → Nat → Nat × List Nat × Nat
  | 0, a => (1, [], f a)
  | r + 1, a =>
    if f a != 429 then (1, [], f a)
    else
      let rest := retryAux f r (a + 1)
      (rest.1 + 1, backoffWait a :: rest.2.1, rest.2.2)

/-- The full retry loop: attempts 0 through `MAX_RETRIES`. -/
def retryLoop (f : Nat → Nat) : Nat × List Nat × Nat :=
  retryAux f MAX_RETRIES 0

/-- `Response.ok`: status in the 2xx range. -/
def isOk (status : Nat) : Bool := 200 ≤ status && status ≤ 299

/-- `upstream?.status || 500` (a zero status, which cannot occur for a real
HTTP response, would coalesce to 500). -/
def statusOr500 (st : Nat) : Nat := if st = 0 then 500 else st

/-- proxy.ts line 347: error-kind selection on the Chat-Completions path. -/
def errorTypeForStatus (st : Nat) : String :=
  if st = 429 then "rate_limit_error"
  else if st = 401 then "authentication_error"
  else if 500 ≤ st then "api_error"
  else "invalid_request_error"

/-- One tool call of an OpenAI Chat-Completions choice. -/
structure ToolCallFn where
  name : String
  arguments : Option String

structure ToolCall where
  id : String
  function : ToolCallFn

structure ChoiceMessage where
  content : Option String
  tool_calls : Option (List ToolCall)

structure Choice where
  message : Option ChoiceMessage
  finish_reason : Option String

structure UsageInfo where
  prompt_tokens : Option Nat
  completion_tokens : Option Nat

/-- The parsed non-streaming Chat-Completions upstream response
(proxy.ts lines 354-357). -/
structure OpenAIRes where
  choices : Option (List Choice)
  usage : Option UsageInfo

/-- One Anthropic content block of the non-streaming reply.  The tool input
is kept as the raw argument string; `JSON.parse` of it is not modelled (the
claims do not concern the parsed value). -/
inductive ContentBlock where
  | text (t : String) : ContentBlock
  | toolUse (id : String) (name : String) (input : String) : ContentBlock
deriving DecidableEq

/-- The Anthropic-shaped non-streaming reply body (proxy.ts line 368); the
time-derived `id` field is not modelled. -/
structure AnthropicReply where
  role : String
  model : String
  content : List ContentBlock
  stop_reason : String
  input_tokens : Nat
  output_tokens : Nat
deriving DecidableEq

/-- `choice?.finish_reason` after `choices?.[0]`. -/
def finishReasonOf (r : OpenAIRes) : Option String :=
  (r.choices.bind List.head?).bind Choice.finish_reason

/-- proxy.ts lines 353-368: the non-streaming response translator. -/
def nonStreamingReply (r : OpenAIRes) (spoofModel : String) : AnthropicReply :=
  let choice := r.choices.bind List.head?
  let msg := choice.bind Choice.message
  let textBlocks : List ContentBlock :=
    match msg.bind ChoiceMessage.content with
    | some s => if s.isEmpty then [] else [.text s]
    | none => []
  let toolBlocks : List ContentBlock :=
    match msg.bind ChoiceMessage.tool_calls with
    | some tcs =>
      tcs.map (fun tc =>
        let rawArgs := tc.function.arguments.getD ""
        .toolUse tc.id tc.function.name (if rawArgs.isEmpty then "\x7b\x7d" else rawArgs))
    | none => []
  let fr := choice.bind Choice.finish_reason
  let stopReason :=
    if fr == some "tool_calls" then "tool_use"
    else if fr == some "length" then "max_tokens"
    else "end_turn"
  { role := "assistant"
    model := spoofModel
    content := textBlocks ++ toolBlocks
    stop_reason := stopReason
    input_tokens := (r.usage.bind UsageInfo.prompt_tokens).getD 0
    output_tokens := (r.usage.bind UsageInfo.completion_tokens).getD 0 }

/-- What the client is answered on the translated (non-passthrough) path. -/
inductive Reply where
  | err (status : Nat) (contentType : String) (errType : String) (message : String) : Reply
  | sse (status : Nat) (contentType : String) : Reply
  | jsonMsg (body : AnthropicReply) : Reply
deriving DecidableEq

/-- proxy.ts lines 263-381: outcome of the translated path once the retry
loop has produced a terminal upstream response.  `st` is the terminal status,
`hasBody` whether the upstream response carried a body, `upstreamJson` the
parsed body on the non-streaming Chat-Completions path, `errText` the error
body text.  (The `!upstream` null checks are vacuous — the loop always runs
at least once — and JSON-parse failures of a 2xx body are handled by the
outer catch, outside this function.) -/
def translatedReply (provider : String) (isStreaming : Bool) (st : Nat)
    (hasBody : Bool) (upstreamJson : OpenAIRes) (errText : String)
    (spoofModel : String) : Reply :=
  if provider == "chatgpt" then
    if !isOk st then .err (statusOr500 st) "application/json" "api_error" errText
    else if !hasBody then .err 500 "application/json" "api_error" "No response body"
    else .sse 200 "text/event-stream"
  else
    if !isOk st then
      .err (statusOr500 st) "application/json" (errorTypeForStatus (statusOr500 st)) errText
    else if !isStreaming then .jsonMsg (nonStreamingReply upstreamJson spoofModel)
    else if !hasBody then .err 500 "application/json" "api_error" "No response body"
    else .sse 200 "text/event-stream"

/-- logger.ts line 23: session kinds. -/
inductive SType where
  | lead : SType
  | teammate : SType
  | warmup : SType
deriving DecidableEq

/-- One logger session (logger.ts lines 19-27); the display label (which name
extraction may override), color and log stream are diagnostics-only and not
modelled — the `key` is the session identity. -/
structure Session where
  key : String
  type : SType
  lastMsgCount : Int
  requestCount : Nat
deriving DecidableEq

/-- The logger's mutable state: the session map in insertion order (JS `Map`
iteration order) and the teammate counter. -/
structure LoggerState where
  sessions : List Session
  teammateIndex : Nat
deriving DecidableEq

/-- logger.ts lines 190-227 (`getOrCreate`): reuse the session under `key`
(a fresh session starts at `requestCount = 0`); in both cases the trailing
lines set `lastMsgCount` and increment `requestCount`. -/
def getOrCreate (key : String) (ty : SType) (msgCount : Int) (st : LoggerState) :
    String × LoggerState :=
  if st.sessions.any (fun s => s.key == key) then
    (key, { st with sessions := st.sessions.map (fun s =>
        if s.key == key then
          { s with lastMsgCount := msgCount, requestCount := s.requestCount + 1 }
        else s) })
  else
    (key, { st with sessions :=
        st.sessions ++ [{ key := key, type := ty, lastMsgCount := msgCount, requestCount := 1 }] })

/-- The teammate-matching scan of logger.ts lines 83-94: walk the sessions in
map order tracking the best (index, diff) so far; a session is taken when it
is a teammate, `0 ≤ diff ≤ 8`, and `diff` strictly improves on the best so
far (`Infinity` initially, so any admissible diff beats an empty best). -/
def bestScan (m : Int) : List Session → Nat → Option (Nat × Int) → Option (Nat × Int)
  | [], _, best => best
  | s :: rest, i, best =>
    let diff := m - s.lastMsgCount
    if s.type == SType.teammate && decide (0 ≤ diff) && decide (diff ≤ 8)
        && (match best with | none => true | some (_, bd) => decide (diff < bd)) then
      bestScan m rest (i + 1) (some (i, diff))
    else
      bestScan m rest (i + 1) best

/-- logger.ts lines 66-107 (`identify`): warmup on zero tools, lead when not
a teammate, otherwise attach to the nearest teammate session by message-count
gap or allocate `T(teammateIndex+1)`.  Returns the session key and the
updated state.  (The name extracted from the system text only affects the
display label, not the identity; it is not modelled.) -/
def identify (toolCount : Nat) (msgCount : Int) (isTeammate : Bool)
    (st : LoggerState) : String × LoggerState :=
  if toolCount == 0 then getOrCreate "WARM" .warmup msgCount st
  else if !isTeammate then getOrCreate "LEAD" .lead msgCount st
  else
    match bestScan msgCount st.sessions 0 none with
    | some (i, _) =>
      match st.sessions[i]? with
      | some s =>
        let s2 : Session := { s with lastMsgCount := msgCount, requestCount := s.requestCount + 1 }
        (s.key, { st with sessions := st.sessions.set i s2 })
      | none => ("", st)  -- unreachable: the scan only returns in-range indices
    | none =>
      let idx := st.teammateIndex + 1
      getOrCreate ("T" ++ toString idx) .teammate msgCount { st with teammateIndex := idx }

/-- A teammate session whose last recorded message count trails the current
count by a non-negative gap of at most 8 (logger.ts line 90). -/
def validGap (m : Int) (s : Session) : Bool :=
  s.type == SType.teammate && decide (0 ≤ m - s.lastMsgCount) && decide (m - s.lastMsgCount ≤ 8)

/-- The spec's stop-reason mapping, stated in its own words:
`tool_calls` maps to `tool_use`, `length` to `max_tokens`, anything else or
absent to `end_turn`. -/
def specStopReason (fr : Option String) : String :=
  if fr = some "tool_calls" then "tool_use"
  else if fr = some "length" then "max_tokens"
  else "end_turn"

/-- An optional search string as handed to the classifier. -/
def searchOfOptStr : Option String → SearchArg
  | none => .undef
  | some s => .ofStr s

/-- Example configuration: OpenAI provider with only the `lead` matcher. -/
def cfgLeadOnly : ProxyConfig :=
  { targetProvider := "openai"
    targetModel := "gpt-5"
    spoofModel := "claude-spoof"
    targetUrl := none
    passthroughModels := ["lead"]
    leadBaseUrl := none }

/-- Example request whose system text matches the teammate phrase and also
carries the lead marker. -/
def reqTeammateLead : InboundReq :=
  { model := "claude-opus-4"
    system := .str "The user interacts primarily with the team lead. hydra:lead"
    messages := some []
    stream := none
    tools := some [Json.obj []] }

/-- Example configuration with no passthrough matchers. -/
def cfgNoMatchers : ProxyConfig :=
  { targetProvider := "openai"
    targetModel := "gpt-5"
    spoofModel := "claude-spoof"
    targetUrl := none
    passthroughModels := []
    leadBaseUrl := none }

/-- Example count_tokens request whose messages serialize to exactly 400
characters: one string message of 396 `a`s serializes as
`["aaaa…a"]` = 1 + 1 + 396 + 1 + 1 characters. -/
def reqMsg400 : InboundReq :=
  { model := "claude-opus-4"
    system := .absent
    messages := some [Json.str ⟨List.replicate 396 'a'⟩]
    stream := none
    tools := none }

/-! ## Theorems -/

/-- C1: every main-endpoint request whose system text matches the teammate
phrase routes to translate, never passthrough — even with the lead marker in
the search text and the `lead` matcher configured. -/
theorem teammate_always_translates (cfg : ProxyConfig) (req : InboundReq)
    (h : isTeammateOf req = true) :
    mainRoute cfg (some req) = MainReply.translate cfg.targetProvider := by
  simp [mainRoute, mainPassthroughB, h]

/-- C1 witness: a concrete teammate request with the lead marker present and
the `lead` matcher configured still translates. -/
theorem teammate_always_translates_witness :
    isTeammateOf reqTeammateLead = true
    ∧ cfgLeadOnly.passthroughModels.contains "lead" = true
    ∧ containsStr (fullTextOf reqTeammateLead) LEAD_MARKER = true
    ∧ mainRoute cfgLeadOnly (some reqTeammateLead) = MainReply.translate "openai" := by
  refine ⟨by decide, by decide, by decide, ?_⟩
  exact teammate_always_translates cfgLeadOnly reqTeammateLead (by decide)

/-- C7: an unparseable body is recovered locally on count_tokens (status 200,
default 1000 tokens) but is fatal on the main endpoint (500 with a structured
`api_error` envelope), with no upstream call or translation attempted. -/
theorem malformed_body_handling (cfg : ProxyConfig) :
    handleCount cfg none = CountReply.localJson 200 1000
    ∧ mainRoute cfg none = MainReply.parseError 500 "api_error"
    ∧ attemptsUpstreamOrTranslation (mainRoute cfg none) = false :=
  ⟨rfl, rfl, rfl⟩

/-- C3 counterexample: a request carrying both the teammate phrase and the
lead marker in its system string passes through on count_tokens but
translates on the main endpoint, so the two endpoints do not share one
routing rule. -/
theorem count_vs_main_routing_counterexample :
    countPassthroughB cfgLeadOnly reqTeammateLead = true
    ∧ mainPassthroughB cfgLeadOnly reqTeammateLead = false
    ∧ handleCount cfgLeadOnly (some reqTeammateLead)
        = CountReply.passthroughCall "https://api.anthropic.com/v1/messages/count_tokens"
    ∧ mainRoute cfgLeadOnly (some reqTeammateLead) = MainReply.translate "openai" := by
  refine ⟨by decide, by decide, by decide, by decide⟩

/-- C3 amended: the count_tokens decision uses the same `shouldPassthrough`
classifier and matcher semantics, but applied to the raw `system` field as
search text (message text is not included) and without the teammate
override. -/
theorem count_tokens_routing_rule (cfg : ProxyConfig) (req : InboundReq) :
    (∃ url, handleCount cfg (some req) = CountReply.passthroughCall url) ↔
      (!req.model.isEmpty
        && shouldPassthrough req.model cfg.passthroughModels (searchArgOfSystem req.system))
        = true := by
  constructor
  · rintro ⟨url, h⟩
    by_cases hc :
        (!req.model.isEmpty
          && shouldPassthrough req.model cfg.passthroughModels (searchArgOfSystem req.system))
          = true
    · exact hc
    · simp [handleCount, countPassthroughB, hc] at h
  · intro hc
    refine ⟨normalizeAnthropicMessagesUrl
      (if cfg.passthroughModels.contains "lead"
          && containsStr (extractSystemText req.system) LEAD_MARKER then
        truthyOr cfg.leadBaseUrl DEFAULT_ANTHROPIC_BASE_URL
      else DEFAULT_ANTHROPIC_BASE_URL) true, ?_⟩
    simp [handleCount, countPassthroughB, hc]

/-- C4: the classifier's decision table — no matchers: translate; `*`:
passthrough iff the model name has the passthrough provider's native
`claude-` prefix; `lead` (and no `*`): passthrough iff the search text
contains the lead marker; otherwise: passthrough iff the model is literally
listed. -/
theorem classifier_cases (model : String) (matchers : List String) (s : Option String) :
    (matchers = [] → shouldPassthrough model matchers (searchOfOptStr s) = false)
    ∧ (matchers.contains "*" = true →
        shouldPassthrough model matchers (searchOfOptStr s) = startsWithJS model "claude-")
    ∧ (matchers.contains "*" = false → matchers.contains "lead" = true →
        shouldPassthrough model matchers (searchOfOptStr s)
          = (s.map (fun t => containsStr t LEAD_MARKER)).getD false)
    ∧ (matchers ≠ [] → matchers.contains "*" = false → matchers.contains "lead" = false →
        shouldPassthrough model matchers (searchOfOptStr s) = matchers.contains model) := by
  refine ⟨?_, ?_, ?_, ?_⟩
  · intro h; subst h; rfl
  · intro h
    have h' : "*" ∈ matchers := by simpa using h
    have hne : matchers.isEmpty = false := by cases matchers <;> simp_all
    simp [shouldPassthrough, hne, h']
  · intro hstar hlead
    have hstar' : "*" ∉ matchers := by simpa using hstar
    have hlead' : "lead" ∈ matchers := by simpa using hlead
    have hne : matchers.isEmpty = false := by cases matchers <;> simp_all
    simp [shouldPassthrough, hne, hstar', hlead']
    cases s with
    | none => rfl
    | some t =>
      simp [searchOfOptStr, searchTruthy, searchIncludesLead]
      by_cases ht : t.isEmpty = true
      · have h0 : t = "" := (String.isEmpty_iff t).mp ht
        subst h0; decide
      · simp [ht]
  · intro hne hstar hlead
    have hstar' : "*" ∉ matchers := by simpa using hstar
    have hlead' : "lead" ∉ matchers := by simpa using hlead
    have h0 : matchers.isEmpty = false := by cases matchers <;> simp_all
    simp [shouldPassthrough, h0, hstar', hlead']

/-- C4 witness: with only the `lead` matcher and a search text containing the
marker, the classifier passes through. -/
theorem classifier_cases_witness :
    shouldPassthrough "claude-x" ["lead"] (searchOfOptStr (some "do hydra:lead now")) = true := by
  have h := (classifier_cases "claude-x" ["lead"] (some "do hydra:lead now")).2.2.1
    (by decide) (by decide)
  rw [h]; decide

/-- C5: on the Chat-Completions path a non-2xx terminal upstream result is
mirrored to the client with its status and the envelope
`/ type: error, error: / type, message / /` where the kind is
`rate_limit_error` for 429, `authentication_error` for 401, `api_error` for
status ≥ 500, and `invalid_request_error` otherwise. -/
theorem chat_completions_error_envelope (st : Nat) (isStreaming hasBody : Bool)
    (r : OpenAIRes) (errText spoof : String)
    (hok : isOk st = false) (hz : st ≠ 0) :
    translatedReply "openai" isStreaming st hasBody r errText spoof
      = Reply.err st "application/json"
          (if st = 429 then "rate_limit_error"
           else if st = 401 then "authentication_error"
           else if 500 ≤ st then "api_error"
           else "invalid_request_error") errText := by
  simp [translatedReply, hok, statusOr500, hz, errorTypeForStatus]

/-- C5 witness: a 404 upstream result yields a 404 `invalid_request_error`
envelope. -/
theorem chat_completions_error_envelope_witness :
    translatedReply "openai" true 404 true { choices := none, usage := none } "boom" "spoof"
      = Reply.err 404 "application/json" "invalid_request_error" "boom" := by
  have h := chat_completions_error_envelope 404 true true
    { choices := none, usage := none } "boom" "spoof" (by decide) (by decide)
  simpa using h

/-- C6: the non-streaming translator maps `tool_calls` to `tool_use`,
`length` to `max_tokens`, anything else or absent to `end_turn`, and
defaults absent usage counts to zero. -/
theorem nonstreaming_stop_reason_and_usage (r : OpenAIRes) (spoof : String) :
    (nonStreamingReply r spoof).stop_reason = specStopReason (finishReasonOf r)
    ∧ (r.usage.bind UsageInfo.prompt_tokens = none →
        (nonStreamingReply r spoof).input_tokens = 0)
    ∧ (r.usage.bind UsageInfo.completion_tokens = none →
        (nonStreamingReply r spoof).output_tokens = 0) := by
  refine ⟨?_, ?_, ?_⟩
  · show (if (r.choices.bind List.head?).bind Choice.finish_reason == some "tool_calls"
        then "tool_use"
        else if (r.choices.bind List.head?).bind Choice.finish_reason == some "length"
        then "max_tokens" else "end_turn")
      = specStopReason (finishReasonOf r)
    rw [finishReasonOf]
    generalize (r.choices.bind List.head?).bind Choice.finish_reason = fr
    by_cases h1 : fr = some "tool_calls"
    · simp [specStopReason, h1]
    · by_cases h2 : fr = some "length"
      · simp [specStopReason, h1, h2]
      · simp [specStopReason, h1, h2]
  · intro h; simp [nonStreamingReply, h]
  · intro h; simp [nonStreamingReply, h]

/-- C6 witness: an upstream response with no choices and no usage yields
`end_turn` and zero usage counts. -/
theorem nonstreaming_stop_reason_and_usage_witness :
    (nonStreamingReply { choices := none, usage := none } "m").stop_reason = "end_turn"
    ∧ (nonStreamingReply { choices := none, usage := none } "m").input_tokens = 0
    ∧ (nonStreamingReply { choices := none, usage := none } "m").output_tokens = 0 :=
  ⟨(nonstreaming_stop_reason_and_usage { choices := none, usage := none } "m").1,
   (nonstreaming_stop_reason_and_usage { choices := none, usage := none } "m").2.1 rfl,
   (nonstreaming_stop_reason_and_usage { choices := none, usage := none } "m").2.2 rfl⟩

/-- C10: on the ChatGPT (Responses API) path every 2xx-with-body upstream
result is answered as an SSE stream (`text/event-stream`), regardless of the
inbound stream flag; replies built by the non-streaming translator occur
only on the OpenAI Chat-Completions path. -/
theorem chatgpt_path_always_sse :
    (∀ (isStreaming : Bool) (st : Nat) (r : OpenAIRes) (e s : String),
        isOk st = true →
        translatedReply "chatgpt" isStreaming st true r e s
          = Reply.sse 200 "text/event-stream")
    ∧ (∀ (isStreaming hasBody : Bool) (st : Nat) (r : OpenAIRes) (e s : String)
          (b : AnthropicReply),
        translatedReply "chatgpt" isStreaming st hasBody r e s ≠ Reply.jsonMsg b)
    ∧ (∀ (hasBody : Bool) (st : Nat) (r : OpenAIRes) (e s : String),
        isOk st = true →
        translatedReply "openai" false st hasBody r e s
          = Reply.jsonMsg (nonStreamingReply r s)) := by
  refine ⟨?_, ?_, ?_⟩
  · intro isStreaming st r e s hok
    simp [translatedReply, hok]
  · intro isStreaming hasBody st r e s b
    simp only [translatedReply]
    split
    · split
      · simp
      · split <;> simp
    · next h => exact absurd (by decide) h
  · intro hasBody st r e s hok
    simp [translatedReply, hok]

/-- C10 witness: a 200-with-body ChatGPT result with the inbound request
declaring `stream: false` is still answered as an SSE stream. -/
theorem chatgpt_path_always_sse_witness :
    translatedReply "chatgpt" false 200 true { choices := none, usage := none } "" ""
      = Reply.sse 200 "text/event-stream" :=
  chatgpt_path_always_sse.1 false 200 { choices := none, usage := none } "" "" (by decide)

/-- Behaviour of the retry loop from any attempt offset: `k` leading 429s
followed by a non-429 give `k + 1` calls, the backoff delays of attempts
`a, …, a+k-1`, and the non-429 status as terminal result. -/
theorem retryAux_spec (f : Nat → Nat) :
    ∀ (k r a : Nat), k ≤ r → (∀ i, i < k → f (a + i) = 429) → f (a + k) ≠ 429 →
      retryAux f r a
        = (k + 1, (List.range k).map (fun i => backoffWait (a + i)), f (a + k)) := by
  intro k
  induction k with
  | zero =>
    intro r a _ _ hstop
    cases r with
    | zero => simp [retryAux]
    | succ r' =>
      have : (f a != 429) = true := by
        simpa using hstop
      simp [retryAux, this]
  | succ k ih =>
    intro r a hkr h429 hstop
    cases r with
    | zero => omega
    | succ r' =>
      have ha : f a = 429 := by
        have := h429 0 (Nat.succ_pos k)
        simpa using this
      have hni : (f a != 429) = false := by simp [ha]
      have hrest := ih r' (a + 1) (Nat.le_of_succ_le_succ hkr)
        (fun i hi => by
          have := h429 (i + 1) (Nat.succ_lt_succ hi)
          simpa [Nat.add_assoc, Nat.add_comm 1 i] using this)
        (by
          have : a + 1 + k = a + (k + 1) := by omega
          rw [this]; exact hstop)
      simp only [retryAux, hni, Bool.false_eq_true, if_false, hrest]
      refine Prod.ext rfl (Prod.ext ?_ ?_)
      · show backoffWait a :: (List.range k).map (fun i => backoffWait (a + 1 + i))
          = (List.range (k + 1)).map (fun i => backoffWait (a + i))
        rw [List.range_succ_eq_map, List.map_cons, List.map_map]
        refine congrArg₂ _ (by rw [Nat.add_zero]) ?_
        refine List.map_congr_left ?_
        intro i _
        show backoffWait (a + 1 + i) = backoffWait (a + Nat.succ i)
        congr 1
        omega
      · show f (a + 1 + k) = f (a + (k + 1))
        congr 1
        omega

/-- C2: the translated path's upstream POST is retried only on 429, with
delay `min(1000·2^attempt, 10000)` between attempts: `k` leading 429s
followed by any non-429 status terminate immediately with that response
after `k + 1` calls, and an always-429 upstream receives exactly 6 calls
with delays 1000, 2000, 4000, 8000, 10000 ms and ends on the final 429. -/
theorem retry_policy (f : Nat → Nat) (k : Nat) (hk : k ≤ MAX_RETRIES)
    (h429 : ∀ i, i < k → f i = 429) (hstop : f k ≠ 429) :
    retryLoop f = (k + 1, (List.range k).map backoffWait, f k)
    ∧ retryLoop (fun _ => 429) = (6, [1000, 2000, 4000, 8000, 10000], 429) := by
  constructor
  · have h := retryAux_spec f k MAX_RETRIES 0 hk
      (fun i hi => by simpa using h429 i hi) (by simpa using hstop)
    simpa [retryLoop] using h
  · decide

/-- C2 witness: an upstream answering 200 at once is called exactly once
with no delays; the always-429 bound is the second conjunct. -/
theorem retry_policy_witness :
    retryLoop (fun _ => 200) = (1, [], 200)
    ∧ retryLoop (fun _ => 429) = (6, [1000, 2000, 4000, 8000, 10000], 429) := by
  have h := retry_policy (fun _ => 200) 0 (by decide)
    (fun i hi => absurd hi (Nat.not_lt_zero i)) (by decide)
  simpa using h

/-- C9: a non-passthrough count_tokens request with parseable JSON is
answered 200 with `input_tokens` the ceiling of the serialized messages
array's length over 4 (absent messages serialize as `[]`); a 400-character
serialization yields exactly 100. -/
theorem count_tokens_estimate (cfg : ProxyConfig) (req : InboundReq)
    (h : countPassthroughB cfg req = false) :
    ∃ t, handleCount cfg (some req) = CountReply.localJson 200 t
      ∧ (jsonStringify (Json.arr (req.messages.getD []))).length ≤ 4 * t
      ∧ 4 * t < (jsonStringify (Json.arr (req.messages.getD []))).length + 4
      ∧ ((jsonStringify (Json.arr (req.messages.getD []))).length = 400 → t = 100) := by
  refine ⟨ceilDiv (jsonStringify (Json.arr (req.messages.getD []))).length 4,
    ?_, ?_, ?_, ?_⟩
  · simp [handleCount, h]
  · unfold ceilDiv; omega
  · unfold ceilDiv; omega
  · intro hl; rw [ceilDiv, hl]

set_option maxRecDepth 20000 in
/-- C9 witness: one message of 396 `a`s serializes to 400 characters and is
estimated at 100 input tokens. -/
theorem count_tokens_estimate_witness :
    (jsonStringify (Json.arr (reqMsg400.messages.getD []))).length = 400
    ∧ handleCount cfgNoMatchers (some reqMsg400) = CountReply.localJson 200 100 := by
  have hl : (jsonStringify (Json.arr (reqMsg400.messages.getD []))).length = 400 := by decide
  obtain ⟨t, h1, _, _, h4⟩ := count_tokens_estimate cfgNoMatchers reqMsg400 (by decide)
  exact ⟨hl, by rw [h1, h4 hl]⟩

/-- Starting from a non-empty best accumulator the scan never comes back
empty. -/
theorem bestScan_ne_none (m : Int) :
    ∀ (ss : List Session) (i j0 : Nat) (d0 : Int),
      bestScan m ss i (some (j0, d0)) ≠ none := by
  intro ss
  induction ss with
  | nil => intro i j0 d0 h; simp [bestScan] at h
  | cons s0 rest ih =>
    intro i j0 d0 h
    simp only [bestScan] at h
    split at h
    · exact ih _ _ _ h
    · exact ih _ _ _ h

/-- The scan only ever improves the accumulated diff. -/
theorem bestScan_le_acc (m : Int) :
    ∀ (ss : List Session) (i j0 : Nat) (d0 : Int) (j : Nat) (d : Int),
      bestScan m ss i (some (j0, d0)) = some (j, d) → d ≤ d0 := by
  intro ss
  induction ss with
  | nil =>
    intro i j0 d0 j d h
    simp only [bestScan, Option.some.injEq, Prod.mk.injEq] at h
    omega
  | cons s0 rest ih =>
    intro i j0 d0 j d h
    simp only [bestScan] at h
    split at h
    · next hc =>
      have hlt : m - s0.lastMsgCount < d0 := by
        have h4 := (Bool.and_eq_true _ _).mp hc |>.2
        simpa using h4
      have := ih _ _ _ _ _ h
      omega
    · exact ih _ _ _ _ _ h

/-- The scan's result diff is minimal among all admissible sessions of the
scanned list. -/
theorem bestScan_min (m : Int) :
    ∀ (ss : List Session) (i : Nat) (best : Option (Nat × Int)) (j : Nat) (d : Int),
      bestScan m ss i best = some (j, d) →
      ∀ s ∈ ss, validGap m s = true → d ≤ m - s.lastMsgCount := by
  intro ss
  induction ss with
  | nil => intro i best j d _ s hmem; exact absurd hmem (List.not_mem_nil s)
  | cons s0 rest ih =>
    intro i best j d h s hmem hvalid
    simp only [bestScan] at h
    split at h
    · next hc =>
      rcases List.mem_cons.mp hmem with heq | hmem2
      · subst heq
        exact bestScan_le_acc m rest (i + 1) i (m - s.lastMsgCount) j d h
      · exact ih _ _ _ _ h s hmem2 hvalid
    · next hc =>
      rcases List.mem_cons.mp hmem with heq | hmem2
      · subst heq
        rw [validGap] at hvalid
        cases best with
        | none => exact absurd (by rw [hvalid]; rfl) hc
        | some p =>
          obtain ⟨j0, d0⟩ := p
          have hb : ¬ (m - s.lastMsgCount < d0) := by
            intro hlt
            exact hc (by rw [hvalid, Bool.true_and]; exact decide_eq_true hlt)
          have hd : d ≤ d0 := bestScan_le_acc m rest (i + 1) j0 d0 j d h
          omega
      · exact ih _ _ _ _ h s hmem2 hvalid

/-- A successful scan result is either the initial accumulator or points at
an admissible session of the list, with its diff. -/
theorem bestScan_found (m : Int) :
    ∀ (ss : List Session) (i : Nat) (best : Option (Nat × Int)) (j : Nat) (d : Int),
      bestScan m ss i best = some (j, d) →
      best = some (j, d) ∨
        ∃ k s, ss[k]? = some s ∧ j = i + k ∧ validGap m s = true
          ∧ d = m - s.lastMsgCount := by
  intro ss
  induction ss with
  | nil =>
    intro i best j d h
    simp only [bestScan] at h
    exact Or.inl h
  | cons s0 rest ih =>
    intro i best j d h
    simp only [bestScan] at h
    split at h
    · next hc =>
      rcases ih _ _ _ _ h with hacc | ⟨k, s, hk, hj, hv, hd⟩
      · right
        have hji : j = i ∧ d = m - s0.lastMsgCount := by
          have := hacc
          simp only [Option.some.injEq, Prod.mk.injEq] at this
          exact ⟨this.1.symm, this.2.symm⟩
        refine ⟨0, s0, by simp, by omega, ?_, hji.2⟩
        rw [validGap]
        exact (Bool.and_eq_true _ _).mp hc |>.1
      · right
        exact ⟨k + 1, s, by simpa using hk, by omega, hv, hd⟩
    · next hc =>
      rcases ih _ _ _ _ h with hacc | ⟨k, s, hk, hj, hv, hd⟩
      · exact Or.inl hacc
      · right
        exact ⟨k + 1, s, by simpa using hk, by omega, hv, hd⟩

/-- If no session is admissible the scan finds nothing. -/
theorem bestScan_all_invalid (m : Int) :
    ∀ (ss : List Session) (i : Nat),
      (∀ s ∈ ss, validGap m s = false) → bestScan m ss i none = none := by
  intro ss
  induction ss with
  | nil => intro i _; rfl
  | cons s0 rest ih =>
    intro i hall
    have h0 : validGap m s0 = false := hall s0 (List.mem_cons_self s0 rest)
    rw [validGap] at h0
    simp only [bestScan]
    rw [if_neg (by rw [h0]; simp)]
    exact ih (i + 1) (fun s hs => hall s (List.mem_cons_of_mem s0 hs))

/-- If the scan finds nothing (from an empty accumulator), no session was
admissible. -/
theorem bestScan_none_valid (m : Int) :
    ∀ (ss : List Session) (i : Nat), bestScan m ss i none = none →
      ∀ s ∈ ss, validGap m s = false := by
  intro ss
  induction ss with
  | nil => intro i _ s hmem; exact absurd hmem (List.not_mem_nil s)
  | cons s0 rest ih =>
    intro i h s hmem
    simp only [bestScan] at h
    split at h
    · exact absurd h (bestScan_ne_none m rest (i + 1) i _)
    · next hc =>
      rcases List.mem_cons.mp hmem with heq | hm2
      · subst heq
        cases hv : validGap m s with
        | false => rfl
        | true =>
          exfalso
          apply hc
          rw [validGap] at hv
          rw [hv]; rfl
      · exact ih (i + 1) h s hm2

/-- `getOrCreate` returns its key. -/
theorem getOrCreate_fst (k : String) (ty : SType) (m : Int) (st : LoggerState) :
    (getOrCreate k ty m st).1 = k := by
  simp only [getOrCreate]
  split <;> rfl

/-- `getOrCreate` leaves the teammate counter unchanged. -/
theorem getOrCreate_teammateIndex (k : String) (ty : SType) (m : Int) (st : LoggerState) :
    (getOrCreate k ty m st).2.teammateIndex = st.teammateIndex := by
  simp only [getOrCreate]
  split <;> rfl

/-- C8: a teammate-classified request attaches to an existing teammate
session with a non-negative message-count gap of at most 8, choosing the
smallest such gap; with no admissible session a new teammate session gets
the next sequential label.  Concretely, teammate requests with message
counts 4 then 6 share one session and a following count of 30 allocates a
new one. -/
theorem session_correlation (st : LoggerState) (tc : Nat) (m : Int) (htc : tc ≠ 0) :
    ((∃ s ∈ st.sessions, validGap m s = true) →
      ∃ s ∈ st.sessions, (identify tc m true st).1 = s.key ∧ validGap m s = true
        ∧ ∀ s2 ∈ st.sessions, validGap m s2 = true →
            m - s.lastMsgCount ≤ m - s2.lastMsgCount)
    ∧ ((∀ s ∈ st.sessions, validGap m s = false) →
        (identify tc m true st).1 = "T" ++ toString (st.teammateIndex + 1)
        ∧ (identify tc m true st).2.teammateIndex = st.teammateIndex + 1)
    ∧ (let st0 : LoggerState := { sessions := [], teammateIndex := 0 };
       let r1 := identify 1 4 true st0;
       let r2 := identify 1 6 true r1.2;
       let r3 := identify 1 30 true r2.2;
       r1.1 = "T1" ∧ r2.1 = "T1" ∧ r3.1 = "T2" ∧ r3.2.sessions.length = 2) := by
  have h0 : (tc == 0) = false := by simpa using htc
  refine ⟨?_, ?_, ?_⟩
  · rintro ⟨sx, hsx, hvx⟩
    cases hscan : bestScan m st.sessions 0 none with
    | none => exact absurd (bestScan_none_valid m st.sessions 0 hscan sx hsx) (by simp [hvx])
    | some p =>
      obtain ⟨j, d⟩ := p
      rcases bestScan_found m st.sessions 0 none j d hscan with hacc | ⟨k, s, hk, hj, hv, hd⟩
      · exact absurd hacc (by simp)
      · have hkj : st.sessions[j]? = some s := by
          rw [show j = k by omega]; exact hk
        have hmem : s ∈ st.sessions := by
          obtain ⟨hlt, he⟩ := List.getElem?_eq_some_iff.mp hkj
          exact he ▸ List.getElem_mem hlt
        refine ⟨s, hmem, ?_, hv, ?_⟩
        · simp [identify, h0, hscan, hkj]
        · intro s2 hm2 hv2
          have := bestScan_min m st.sessions 0 none j d hscan s2 hm2 hv2
          omega
  · intro hall
    have hscan := bestScan_all_invalid m st.sessions 0 hall
    constructor
    · simp [identify, h0, hscan, getOrCreate_fst]
    · simp [identify, h0, hscan, getOrCreate_teammateIndex]
  · decide

/-- C8 witness: the concrete 4 / 6 / 30 teammate scenario from an empty
state produces keys T1, T1, T2. -/
theorem session_correlation_witness :
    (let st0 : LoggerState := { sessions := [], teammateIndex := 0 };
     let r1 := identify 1 4 true st0;
     let r2 := identify 1 6 true r1.2;
     let r3 := identify 1 30 true r2.2;
     r1.1 = "T1" ∧ r2.1 = "T1" ∧ r3.1 = "T2" ∧ r3.2.sessions.length = 2) :=
  (session_correlation { sessions := [], teammateIndex := 0 } 1 4 (by decide)).2.2
